import Mathlib

/-!
Verification model of the `parallel_world` crate (src/world.rs and
src/parallel_worlds.rs).

A `World` runs a single-use callable on a dedicated thread.  The model is a
shallow embedding: the struct fields of `World<R>` become fields of a Lean
structure, and each public method becomes a pure state-passing function.  The
spawned thread's body is discretized into three atomic steps (set status to
`Running`; run the callable and update status under the status lock; send the
result on the one-shot channel and terminate).  A scheduler interleaves these
steps between API calls by applying `threadStep`; `World.statusOp` (the Rust
`status()` / the spec's `wait()`) forces the remaining steps when it joins or
when `recv` blocks on a live producer.  A blocking call that can never be
woken (receiver held open by a sender that never sends) is modelled by the
`none` result of `World.statusOp`.

The callable is represented by its outcome: `Except.ok v` for a normal return
of `v`, `Except.error payload` for a panic whose payload renders as `payload`.
Rust's `format!` of the boxed panic payload goes through the `Debug` instance
of `dyn Any`, which elides the payload and prints `Any { .. }`; the model
reproduces that with the constant `panickedMsg`.
-/

namespace ParallelWorldModel

/-- The `WorldStatus` enum from src/world.rs. -/
inductive WorldStatus where
  | Ready
  | Running
  | Finished
  | Failed (msg : String)
  | Stopped
  | Killed
deriving DecidableEq, Repr

/-- The `Display` implementation for `WorldStatus` in src/world.rs. -/
def WorldStatus.display : WorldStatus → String
  | .Ready => "Ready"
  | .Running => "Running"
  | .Finished => "Finished"
  | .Failed e => "Failed: " ++ e
  | .Stopped => "Stopped"
  | .Killed => "Killed"

/-- `matches!(*status_guard, WorldStatus::Failed(_))` from `World::start`. -/
def WorldStatus.isFailed : WorldStatus → Bool
  | .Failed _ => true
  | _ => false

/-- Progress of the spawned thread body in `World::start`:
`spawned` = not yet scheduled, `running` = status set to `Running` and the
callable in progress, `computed` = callable returned and status updated, the
result not yet sent on the channel. -/
inductive ThreadPhase (R : Type) where
  | spawned (outcome : Except String R)
  | running (outcome : Except String R)
  | computed (result : Except String R)

/-- The `World<R>` struct from src/world.rs.

* `process` — the `Mutex<Option<Box<dyn FnOnce() -> R>>>` slot, the callable
  identified with its outcome;
* `status` — the shared `Arc<Mutex<WorldStatus>>`;
* `pendingThread` — the spawned OS thread, if it has not yet terminated
  (distinct from the handle: `stop` detaches the handle, the thread lives on);
* `handlePresent` — whether `thread_handle` holds `Some(JoinHandle)`;
* `senderInWorld` — whether `result_sender` still holds `Some(tx)` (at start
  the sender is moved out of the struct into the spawned thread);
* `receiverPresent` — whether `result_receiver` still holds `Some(rx)`;
* `channel` — the message sitting in the one-shot channel, if sent and not
  yet received;
* `execCount` — ghost field counting invocations of the callable. -/
structure World (R : Type) where
  process : Option (Except String R)
  status : WorldStatus
  pendingThread : Option (ThreadPhase R)
  handlePresent : Bool
  senderInWorld : Bool
  receiverPresent : Bool
  channel : Option (Except String R)
  execCount : Nat

/-- The string produced by `format!("Thread panicked: \x7b:?\x7d", e)` in the
spawned thread: `e` is the boxed panic payload (`Box<dyn Any + Send>`), whose
`Debug` rendering is `Any \x7b .. \x7d` regardless of the payload. -/
def panickedMsg : String := "Thread panicked: Any \x7b .. \x7d"

/-- `World::new()`: no callable, `Ready`, fresh channel with the sender and
receiver both stored in the struct. -/
def World.new {R : Type} : World R :=
  { process := none
    status := .Ready
    pendingThread := none
    handlePresent := false
    senderInWorld := true
    receiverPresent := true
    channel := none
    execCount := 0 }

/-- `World::from(f)`: a `Ready` world holding the callable `f`, represented by
its outcome `o`. -/
def World.fromFn {R : Type} (o : Except String R) : World R :=
  { process := some o
    status := .Ready
    pendingThread := none
    handlePresent := false
    senderInWorld := true
    receiverPresent := true
    channel := none
    execCount := 0 }

/-- One atomic step of the spawned thread body from `World::start`.
`spawned`: lock status, write `Running`.  `running`: the callable returns (or
panics), then under the status lock: a normal return writes `Finished` unless
a concurrent `stop` already wrote `Stopped`; a panic is caught and writes
`Failed` with `panickedMsg`.  `computed`: the result is sent on the channel
and the thread terminates, dropping its sender. -/
def threadStep {R : Type} (w : World R) : World R :=
  match w.pendingThread with
  | none => w
  | some (.spawned o) =>
      { w with status := .Running, pendingThread := some (.running o) }
  | some (.running o) =>
      match o with
      | .ok val =>
          { w with
            status := if w.status = .Stopped then w.status else .Finished
            pendingThread := some (.computed (.ok val))
            execCount := w.execCount + 1 }
      | .error _ =>
          { w with
            status := .Failed panickedMsg
            pendingThread := some (.computed (.error panickedMsg))
            execCount := w.execCount + 1 }
  | some (.computed r) =>
      { w with pendingThread := none, channel := some r }

/-- Runs any pending thread to termination (the body has at most three
remaining steps; `threadStep` is the identity once the thread is gone). -/
def runThread {R : Type} (w : World R) : World R :=
  threadStep (threadStep (threadStep w))

/-- `World::start` from src/world.rs: rejects `Running` with
"World is already running.", rejects `Finished`/`Failed` with the
cannot-be-restarted message, then takes the callable out of `process`; with no
callable it fails with "No process defined for this World.".  With a callable
it takes the sender out of the struct (failing, with the callable already
lost, if the sender is absent) and spawns the thread. -/
def World.start {R : Type} (w : World R) : Except String Unit × World R :=
  if w.status = .Running then
    (.error "World is already running.", w)
  else if w.status = .Finished ∨ w.status.isFailed = true then
    (.error "World has already completed or failed and cannot be restarted.", w)
  else
    match w.process with
    | none => (.error "No process defined for this World.", w)
    | some o =>
        if w.senderInWorld then
          (.ok (),
            { w with
              process := none
              senderInWorld := false
              pendingThread := some (.spawned o)
              handlePresent := true })
        else
          (.error "Internal error: Result sender not available.",
            { w with process := none })

/-- `World::stop` from src/world.rs: fails unless the status is `Running`;
otherwise writes `Stopped`, takes the thread handle without joining (the
thread keeps running detached), and takes whatever sits in `result_sender`
(a no-op after `start`, which already moved the sender into the thread). -/
def World.stop {R : Type} (w : World R) : Except String Unit × World R :=
  if w.status = .Running then
    (.ok (),
      { w with status := .Stopped, handlePresent := false, senderInWorld := false })
  else
    (.error "World is not running or already stopped.", w)

/-- `World::progress`: a non-blocking read of the status. -/
def World.progressOp {R : Type} (w : World R) : WorldStatus := w.status

/-- The status match in `World::status` taken when `recv` returns `Err`
(the sender was dropped without a message having been sent). -/
def statusFallback : WorldStatus → String
  | .Finished => "World finished but result not sent (internal error)."
  | .Failed e => e
  | .Stopped => "World was stopped before completion."
  | .Killed => "World was killed before completion."
  | st => "World ended with unexpected status and no result: " ++ st.display

/-- The status match in `World::status` taken when `result_receiver` was
already taken by an earlier call. -/
def statusNoReceiver : WorldStatus → String
  | .Finished => "World result already retrieved."
  | .Failed e => e
  | st => "World result not available for status: " ++ st.display

/-- The join phase of `World::status`: `thread_handle.take()`, then `join` on
the handle if one was present, which blocks until the thread has terminated
(modelled by forcing the remaining thread steps). -/
def joinPhase {R : Type} (w : World R) : World R :=
  if w.handlePresent then { runThread w with handlePresent := false } else w

/-- The `recv` on the one-shot channel in `World::status`, after the receiver
has been taken out of the struct.  A message already in the channel is
returned.  Otherwise, if the (detached) thread is still alive it holds the
sender and will send: `recv` blocks until then, modelled by forcing the
thread.  Otherwise, if the sender still sits in the `World` struct it is
alive but will never send, so `recv` blocks forever: the `none` result.
Otherwise the sender is gone and `recv` fails, taking the status-match
fallback of the source. -/
def recvPhase {R : Type} (w : World R) : Option (Except String R) × World R :=
  match w.channel with
  | some r => (some r, { w with channel := none })
  | none =>
      match w.pendingThread with
      | some _ =>
          match (runThread w).channel with
          | some r => (some r, { runThread w with channel := none })
          | none => (none, runThread w)
      | none =>
          if w.senderInWorld then
            (none, w)
          else
            (some (.error (statusFallback w.status)), w)

/-- `World::status` from src/world.rs — the spec's `wait()`: join the thread
handle if present, then take the receiver and `recv` the result; if the
receiver was already taken, report from the current status.  The first
component is `none` when the call blocks forever. -/
def World.statusOp {R : Type} (w : World R) : Option (Except String R) × World R :=
  if (joinPhase w).receiverPresent then
    recvPhase { joinPhase w with receiverPresent := false }
  else
    (some (.error (statusNoReceiver (joinPhase w).status)), joinPhase w)

/-- `World::run`: `self.start()?` then `self.status()`. -/
def World.runOp {R : Type} (w : World R) : Option (Except String R) × World R :=
  match w.start with
  | (.ok _, w1) => w1.statusOp
  | (.error e, w1) => (some (.error e), w1)

/-- A value boxed as `Box<dyn Any + Send>` by `AnyWorld::any_status` in
src/world.rs: a tagged runtime-typed value, with the tags the claims need. -/
inductive AnyValue where
  | vInt (n : Int)
  | vStr (s : String)
deriving DecidableEq, Repr

/-- `impl AnyWorld for World<R>` stores the world behind the type-erased
capability: a `World<i32>` becomes a world whose delivered result is the
boxed `AnyValue.vInt`, a `World<String>` one delivering `AnyValue.vStr`;
`any_progress`, `any_start`, `any_stop` and `any_status` delegate to the
typed operations on this erased state. -/
abbrev AnyWorld := World AnyValue

/-- Modelled from the spec: the typed retrieval `wait<T>() -> Result<T, Error>`
of section 4.2 (called `status::<T>` by src/main.rs; its implementation is
absent from src/, which holds an older untyped registry revision).  It calls
`wait_opaque()` — `any_status`, i.e. `World.statusOp` on the erased world —
and then attempts to recover the concrete type from the boxed value, failing
with `TypeMismatch` if the stored opaque value is not of the requested type.
This is the integer instance. -/
def waitTypedInt (w : AnyWorld) : Option (Except String Int) × AnyWorld :=
  match w.statusOp with
  | (none, w1) => (none, w1)
  | (some (.error e), w1) => (some (.error e), w1)
  | (some (.ok (.vInt n)), w1) => (some (.ok n), w1)
  | (some (.ok _), w1) => (some (.error "TypeMismatch"), w1)

/-- Modelled from the spec: the string instance of the typed retrieval
`wait<T>()` of section 4.2 (see `waitTypedInt`). -/
def waitTypedStr (w : AnyWorld) : Option (Except String String) × AnyWorld :=
  match w.statusOp with
  | (none, w1) => (none, w1)
  | (some (.error e), w1) => (some (.error e), w1)
  | (some (.ok (.vStr s)), w1) => (some (.ok s), w1)
  | (some (.ok _), w1) => (some (.error "TypeMismatch"), w1)

/-- The `ParallelWorlds` registry from src/parallel_worlds.rs: a
`Mutex<HashMap<String, Arc<World>>>`, modelled as an association list with
unique keys; the worlds are held behind the erased capability so tasks of
different result types share the one container. -/
structure ParallelWorlds where
  worlds : List (String × AnyWorld)

/-- `ParallelWorlds::new()`: the empty registry. -/
def ParallelWorlds.new : ParallelWorlds := ⟨[]⟩

/-- `ParallelWorlds::add` from src/parallel_worlds.rs: fails if the id is
already present, otherwise inserts. -/
def ParallelWorlds.add (pw : ParallelWorlds) (id : String) (w : AnyWorld) :
    Except String Unit × ParallelWorlds :=
  if (pw.worlds.lookup id).isSome then
    (.error ("World with ID \x27" ++ id ++ "\x27 already exists."), pw)
  else
    (.ok (), ⟨(id, w) :: pw.worlds⟩)

/-- `ParallelWorlds::del` from src/parallel_worlds.rs: `NotFound` for an
absent id; refuses to remove a world whose `progress()` is `Running`;
otherwise removes the entry and succeeds. -/
def ParallelWorlds.del (pw : ParallelWorlds) (id : String) :
    Except String Unit × ParallelWorlds :=
  match pw.worlds.lookup id with
  | some w =>
      if w.progressOp = .Running then
        (.error ("Cannot delete running World with ID \x27" ++ id ++
          "\x27. Stop it first."), pw)
      else
        (.ok (), ⟨pw.worlds.filter (fun p => p.1 != id)⟩)
  | none => (.error ("World with ID \x27" ++ id ++ "\x27 not found."), pw)

/-- `ParallelWorlds::list`: the registered ids. -/
def ParallelWorlds.list (pw : ParallelWorlds) : List String :=
  pw.worlds.map Prod.fst

/-- Writes an updated world back under its id (the Rust registry shares the
world state through `Arc<World>`; the functional model updates the map). -/
def ParallelWorlds.put (pw : ParallelWorlds) (id : String) (w : AnyWorld) :
    ParallelWorlds :=
  ⟨pw.worlds.map (fun p => if p.1 = id then (p.1, w) else p)⟩

/-- `ParallelWorlds::exec` from src/parallel_worlds.rs: `NotFound` for an
absent id, else delegates to that world's `start`. -/
def ParallelWorlds.exec (pw : ParallelWorlds) (id : String) :
    Except String Unit × ParallelWorlds :=
  match pw.worlds.lookup id with
  | some w =>
      match w.start with
      | (r, w1) => (r, pw.put id w1)
  | none => (.error ("World with ID \x27" ++ id ++ "\x27 not found."), pw)

/-- `ParallelWorlds::kill` from src/parallel_worlds.rs: `NotFound` for an
absent id, else delegates to that world's `stop` (no harder kill exists). -/
def ParallelWorlds.kill (pw : ParallelWorlds) (id : String) :
    Except String Unit × ParallelWorlds :=
  match pw.worlds.lookup id with
  | some w =>
      match w.stop with
      | (r, w1) => (r, pw.put id w1)
  | none => (.error ("World with ID \x27" ++ id ++ "\x27 not found."), pw)

/-- `ParallelWorlds::progress` from src/parallel_worlds.rs. -/
def ParallelWorlds.progress (pw : ParallelWorlds) (id : String) :
    Except String WorldStatus :=
  match pw.worlds.lookup id with
  | some w => .ok w.progressOp
  | none => .error ("World with ID \x27" ++ id ++ "\x27 not found.")

/-- Modelled from the spec: the registry-level typed wait of sections 4.2/4.3
(`status::<T>(id)` as called by src/main.rs; the typed implementation is
absent from src/): `NotFound` for an absent id, else the typed retrieval on
that world.  Integer instance. -/
def ParallelWorlds.statusTypedInt (pw : ParallelWorlds) (id : String) :
    Option (Except String Int) × ParallelWorlds :=
  match pw.worlds.lookup id with
  | some w =>
      match waitTypedInt w with
      | (r, w1) => (r, pw.put id w1)
  | none => (some (.error ("World with ID \x27" ++ id ++ "\x27 not found.")), pw)

/-- Modelled from the spec: the string instance of the registry-level typed
wait (see `ParallelWorlds.statusTypedInt`). -/
def ParallelWorlds.statusTypedStr (pw : ParallelWorlds) (id : String) :
    Option (Except String String) × ParallelWorlds :=
  match pw.worlds.lookup id with
  | some w =>
      match waitTypedStr w with
      | (r, w1) => (r, pw.put id w1)
  | none => (some (.error ("World with ID \x27" ++ id ++ "\x27 not found.")), pw)

/-- Whether `pat` occurs at the head of `l`. -/
def charsPrefixEq : List Char → List Char → Bool
  | [], _ => true
  | _ :: _, [] => false
  | a :: as, b :: bs => a == b && charsPrefixEq as bs

/-- Whether `pat` occurs somewhere in `l`. -/
def charsContain (pat : List Char) : List Char → Bool
  | [] => charsPrefixEq pat []
  | c :: cs => charsPrefixEq pat (c :: cs) || charsContain pat cs

/-- Substring containment on strings (Rust's `str::contains` for literal
patterns). -/
def strContains (s pat : String) : Bool :=
  charsContain pat.toList s.toList

/-- C1: on a `World` on which `start()` was never called — built by
`World::from` with any callable, or by `World::new` — a call to `wait()`
(`World::status`) never invokes the callable, but contrary to the claim it
does not return an `Err`: it blocks forever (result `none`), because `recv`
waits on a channel whose sender still sits untouched in `result_sender` and
will neither send nor be dropped.  The source's no-thread-ever-started `Err`
arm is unreachable. -/
theorem wait_never_started_blocks_forever (o : Except String Int) :
    (World.statusOp (World.fromFn o)).1 = none ∧
    (World.statusOp (World.fromFn o)).2.execCount = 0 ∧
    (World.statusOp (World.new (R := Int))).1 = none ∧
    (World.statusOp (World.new (R := Int))).2.execCount = 0 :=
  ⟨rfl, rfl, rfl, rfl⟩

/-- C2: a `World` built from a callable returning `v` is started, the spawned
thread reaches `Running`, and `stop()` succeeds.  Contrary to the claim (and
to `stop`'s own comment in src/world.rs), a later `wait()` returns `Ok v`:
the producer side of the result channel was moved into the spawned thread by
`start`, so the `result_sender.take()` in `stop` is a no-op, the detached
thread still sends its result, and `recv` delivers it — while the status
stays `Stopped`. -/
theorem wait_after_stop_delivers_result (v : Int) :
    (((World.fromFn (Except.ok v)).start).1 = .ok () ∧
      (threadStep ((World.fromFn (Except.ok v)).start).2).status = .Running) ∧
    ((threadStep ((World.fromFn (Except.ok v)).start).2).stop).1 = .ok () ∧
    (((threadStep ((World.fromFn (Except.ok v)).start).2).stop).2.statusOp).1
      = some (.ok v) ∧
    (((threadStep ((World.fromFn (Except.ok v)).start).2).stop).2.statusOp).2.status
      = .Stopped :=
  ⟨⟨rfl, rfl⟩, rfl, rfl, rfl⟩

/-- C3: `start()` called twice in direct succession on the same `World`, the
second call while the spawned thread of the first has set the status to
`Running`: the first call succeeds, the second returns the already-running
error and leaves the state untouched, and the callable is executed exactly
once across both calls (the invocation count is 1 once the thread has run,
and the one spawned thread is the only one). -/
theorem second_start_already_running (o : Except String Int) :
    ((World.fromFn o).start).1 = .ok () ∧
    ((threadStep ((World.fromFn o).start).2).start).1
      = .error "World is already running." ∧
    ((threadStep ((World.fromFn o).start).2).start).2
      = threadStep ((World.fromFn o).start).2 ∧
    (runThread ((threadStep ((World.fromFn o).start).2).start).2).execCount = 1 ∧
    (runThread ((threadStep ((World.fromFn o).start).2).start).2).pendingThread
      = none := by
  cases o <;> exact ⟨rfl, rfl, rfl, rfl, rfl⟩

/-- C4, counterexample: a `World` built from a callable that panics with the
message "boom", started and waited.  `wait()` returns an `Err`, but its
diagnostic is exactly `panickedMsg` — `Thread panicked: Any \x7b .. \x7d` —
which does not contain "boom": `format!` renders the boxed panic payload
through the `Debug` instance of `dyn Any`, which elides the payload.  The
claim that the diagnostic contains "boom" is therefore false. -/
theorem panic_diagnostic_drops_payload :
    (((World.fromFn (R := Int) (Except.error "boom")).start).2.statusOp).1
      = some (.error panickedMsg) ∧
    strContains panickedMsg "boom" = false :=
  ⟨rfl, rfl⟩

/-- C4, amended: for every panic payload, after `start()` and `wait()`,
`wait()` returns `Err` whose diagnostic contains "Thread panicked" (the
payload text itself is elided by the `Debug` rendering of the boxed payload),
and `progress()` afterwards returns `Failed` carrying that same diagnostic;
the callable ran exactly once. -/
theorem panic_wait_failed_diagnostic (payload : String) :
    (((World.fromFn (R := Int) (Except.error payload)).start).1 = .ok ()) ∧
    (((World.fromFn (R := Int) (Except.error payload)).start).2.statusOp).1
      = some (.error panickedMsg) ∧
    strContains panickedMsg "Thread panicked" = true ∧
    (((World.fromFn (R := Int) (Except.error payload)).start).2.statusOp).2.progressOp
      = .Failed panickedMsg ∧
    (((World.fromFn (R := Int) (Except.error payload)).start).2.statusOp).2.execCount
      = 1 :=
  ⟨rfl, rfl, rfl, rfl, rfl⟩

/-- C5: a registry holding an integer-returning task and a string-returning
task behind the type-erased capability, both started.  Requesting the integer
task's result typed as string yields the `TypeMismatch` error; requesting it
typed as integer yields exactly the value the callable produced (42).  Both
requests are made against the same post-start registry state. -/
theorem typed_retrieval_type_mismatch :
    (let pw0 := ParallelWorlds.new
     let a1 := pw0.add "int_task" (World.fromFn (Except.ok (AnyValue.vInt 42)))
     let a2 := a1.2.add "str_task" (World.fromFn (Except.ok (AnyValue.vStr "hello")))
     let e1 := a2.2.exec "int_task"
     let e2 := e1.2.exec "str_task"
     a1.1 = .ok () ∧ a2.1 = .ok () ∧ e1.1 = .ok () ∧ e2.1 = .ok () ∧
     (e2.2.statusTypedStr "int_task").1 = some (.error "TypeMismatch") ∧
     (e2.2.statusTypedInt "int_task").1 = some (.ok 42)) :=
  ⟨rfl, rfl, rfl, rfl, rfl, rfl⟩

/-- C6: a `World` built from a callable that returns the value 100, after
`start()` and then `wait()`: `wait()` returns `Ok 100` and a subsequent
`progress()` returns `Finished`.  The same holds if the spawned thread has
already run to completion before `wait()` is called. -/
theorem finished_task_delivers_value :
    (((World.fromFn (R := Int) (Except.ok 100)).start).1 = .ok ()) ∧
    (((World.fromFn (R := Int) (Except.ok 100)).start).2.statusOp).1
      = some (.ok 100) ∧
    (((World.fromFn (R := Int) (Except.ok 100)).start).2.statusOp).2.progressOp
      = .Finished ∧
    ((runThread ((World.fromFn (R := Int) (Except.ok 100)).start).2).statusOp).1
      = some (.ok 100) ∧
    ((runThread ((World.fromFn (R := Int) (Except.ok 100)).start).2).statusOp).2.progressOp
      = .Finished :=
  ⟨rfl, rfl, rfl, rfl, rfl⟩

/-- C9: a `World` that was started (the spawned thread reached `Running`) and
then successfully stopped.  A subsequent `start()` always returns an error
and the callable is never executed a second time: in general, on any state
whose status is still `Stopped` and whose callable slot was emptied (as the
first `start` did), `start` passes both status precondition checks — they
reject only `Running` and `Finished`/`Failed` — and then fails with the
no-process-defined error, leaving the state untouched.  The concrete trace
conjuncts show this for the restart immediately after `stop` (any callable)
and at every later point of the detached thread of a normally-returning
callable; a panicking detached thread instead overwrites the status with
`Failed`, after which the restart is rejected by the completed-or-failed
check — still an error, still no second execution (the invocation count
stays 1). -/
theorem restart_after_stop_no_process (o : Except String Int) (v : Int)
    (payload : String) (w : World Int)
    (hs : w.status = .Stopped) (hp : w.process = none) :
    w.start = (.error "No process defined for this World.", w) ∧
    ((World.fromFn o).start).1 = .ok () ∧
    ((threadStep ((World.fromFn o).start).2).stop).1 = .ok () ∧
    (((threadStep ((World.fromFn o).start).2).stop).2.start).1
      = .error "No process defined for this World." ∧
    ((threadStep (((World.fromFn o).start).2)).stop).2.process = none ∧
    ((threadStep ((threadStep ((World.fromFn (Except.ok v)).start).2).stop).2).start).1
      = .error "No process defined for this World." ∧
    ((threadStep (threadStep ((threadStep ((World.fromFn (Except.ok v)).start).2).stop).2)).start).1
      = .error "No process defined for this World." ∧
    (runThread (((threadStep ((World.fromFn o).start).2).stop).2.start).2).execCount
      = 1 ∧
    ((runThread ((threadStep ((World.fromFn (R := Int) (Except.error payload)).start).2).stop).2).start).1
      = .error "World has already completed or failed and cannot be restarted." ∧
    ((runThread ((threadStep ((World.fromFn (R := Int) (Except.error payload)).start).2).stop).2).start).2.execCount
      = 1 := by
  refine ⟨?_, ?_⟩
  · unfold World.start
    rw [hs, hp]
    rfl
  · cases o <;> exact ⟨rfl, rfl, rfl, rfl, rfl, rfl, rfl, rfl, rfl⟩

/-- Removing a key by filtering leaves no binding for it (`HashMap::remove`
on the association-list model). -/
theorem lookup_filter_ne_key (l : List (String × AnyWorld)) (id : String) :
    (l.filter (fun p => p.1 != id)).lookup id = none := by
  induction l with
  | nil => rfl
  | cons hd tl ih =>
      by_cases h : hd.1 = id
      · simp [List.filter_cons, h, ih]
      · have hb : (id == hd.1) = false := by
          simpa using Ne.symm h
        simp [List.filter_cons, List.lookup, h, hb, ih]

/-- C7: calling `add` with an id already present in the registry returns the
duplicate-id error, and the registry is unchanged by the failed call — in
particular its entry count and the existing binding for that id. -/
theorem add_duplicate_id_rejected (pw : ParallelWorlds) (id : String)
    (w : AnyWorld) (h : (pw.worlds.lookup id).isSome = true) :
    pw.add id w
      = (.error ("World with ID \x27" ++ id ++ "\x27 already exists."), pw) ∧
    (pw.add id w).2.worlds.length = pw.worlds.length ∧
    (pw.add id w).2.worlds.lookup id = pw.worlds.lookup id := by
  have hadd : pw.add id w
      = (.error ("World with ID \x27" ++ id ++ "\x27 already exists."), pw) := by
    unfold ParallelWorlds.add
    rw [if_pos h]
  exact ⟨hadd, by rw [hadd], by rw [hadd]⟩

/-- C7, witness: `add_duplicate_id_rejected` applied to the registry obtained
by adding "a" to the empty registry, adding "a" again. -/
theorem add_duplicate_id_rejected_witness :
    ((ParallelWorlds.new.add "a" (World.new : AnyWorld)).2.add "a"
        (World.new : AnyWorld)).1
      = .error "World with ID \x27a\x27 already exists." := by
  have h := add_duplicate_id_rejected
    (ParallelWorlds.new.add "a" (World.new : AnyWorld)).2 "a"
    (World.new : AnyWorld) rfl
  rw [h.1]
  rfl

/-- C8: `del` on an id whose world's current status is `Running` returns the
still-running error and leaves the registry — hence the entry — unchanged;
`del` on a registered id whose world is in any non-`Running` state succeeds
and removes the binding; `del` of an absent id returns the not-found error. -/
theorem del_running_and_terminal (pw : ParallelWorlds) (id : String) :
    (∀ w : AnyWorld, pw.worlds.lookup id = some w → w.progressOp = .Running →
        pw.del id = (.error ("Cannot delete running World with ID \x27" ++ id ++
          "\x27. Stop it first."), pw)) ∧
    (∀ w : AnyWorld, pw.worlds.lookup id = some w → w.progressOp ≠ .Running →
        (pw.del id).1 = .ok () ∧ (pw.del id).2.worlds.lookup id = none) ∧
    (pw.worlds.lookup id = none →
        pw.del id = (.error ("World with ID \x27" ++ id ++ "\x27 not found."), pw)) := by
  refine ⟨?_, ?_, ?_⟩
  · intro w hw hr
    unfold ParallelWorlds.del
    rw [hw]
    dsimp only
    rw [if_pos hr]
  · intro w hw hr
    unfold ParallelWorlds.del
    rw [hw]
    dsimp only
    rw [if_neg hr]
    exact ⟨rfl, lookup_filter_ne_key pw.worlds id⟩
  · intro h
    unfold ParallelWorlds.del
    rw [h]

/-- C8, witness: `del_running_and_terminal` applied to a one-entry registry
whose world is `Ready` (a non-`Running` state): removal succeeds and the
binding is gone. -/
theorem del_running_and_terminal_witness :
    ((⟨[("a", (World.new : AnyWorld))]⟩ : ParallelWorlds).del "a").1 = .ok () ∧
    ((⟨[("a", (World.new : AnyWorld))]⟩ : ParallelWorlds).del "a").2.worlds.lookup "a"
      = none :=
  (del_running_and_terminal ⟨[("a", (World.new : AnyWorld))]⟩ "a").2.1
    (World.new : AnyWorld) rfl (by decide)

/-- C9, witness: the general stopped-state part of
`restart_after_stop_no_process` applied to the concrete world obtained by
starting a callable returning 5, letting its thread reach `Running`, and
stopping it. -/
theorem restart_after_stop_no_process_witness :
    (((threadStep ((World.fromFn (Except.ok (5 : Int))).start).2).stop).2).start
      = (.error "No process defined for this World.",
          ((threadStep ((World.fromFn (Except.ok (5 : Int))).start).2).stop).2) :=
  (restart_after_stop_no_process (Except.ok 5) 5 "x"
    ((threadStep ((World.fromFn (Except.ok (5 : Int))).start).2).stop).2 rfl rfl).1

/-- The states of a `World` reachable from construction (`World::new` or
`World::from`) through any interleaving of the public operations (`start`,
`stop`, `status`/wait, `run`; `progress` does not change state) and the
spawned thread's own steps.  The registry operations of
src/parallel_worlds.rs touch the member worlds only through these same
operations (`exec`/`start_all` call `start`, `kill`/`stop_all` call `stop`,
the registry `status` calls the world `status`, `progress` only reads, and
`add`/`del`/`list`/`get` never touch world state), so closure under these
constructors covers every sequence of registry calls as well. -/
inductive Reach {R : Type} : World R → Prop where
  | new : Reach World.new
  | fromFn (o : Except String R) : Reach (World.fromFn o)
  | start {w : World R} : Reach w → Reach w.start.2
  | stop {w : World R} : Reach w → Reach w.stop.2
  | status {w : World R} : Reach w → Reach w.statusOp.2
  | run {w : World R} : Reach w → Reach w.runOp.2
  | thread {w : World R} : Reach w → Reach (threadStep w)

/-- A thread step never writes `Killed`: it writes `Running`, `Finished`,
`Failed` or keeps the current status. -/
theorem threadStep_status_ne_killed {R : Type} {w : World R}
    (h : w.status ≠ .Killed) : (threadStep w).status ≠ .Killed := by
  unfold threadStep
  rcases hp : w.pendingThread with _ | ph
  · exact h
  · rcases ph with o | o | r
    · intro hc
      cases hc
    · rcases o with e | v
      · intro hc
        cases hc
      · dsimp only
        split
        · exact h
        · intro hc
          cases hc
    · exact h

/-- `runThread` never writes `Killed`. -/
theorem runThread_status_ne_killed {R : Type} {w : World R}
    (h : w.status ≠ .Killed) : (runThread w).status ≠ .Killed :=
  threadStep_status_ne_killed (threadStep_status_ne_killed
    (threadStep_status_ne_killed h))

/-- `start` never writes the status at all. -/
theorem start_status_eq {R : Type} (w : World R) :
    w.start.2.status = w.status := by
  unfold World.start
  split
  · rfl
  · split
    · rfl
    · rcases hp : w.process with _ | o
      · rfl
      · dsimp only
        split
        · rfl
        · rfl

/-- `stop` writes `Stopped` or leaves the status alone. -/
theorem stop_status_ne_killed {R : Type} {w : World R}
    (h : w.status ≠ .Killed) : w.stop.2.status ≠ .Killed := by
  unfold World.stop
  split
  · intro hc
    cases hc
  · exact h

/-- The join phase of `status` never writes `Killed`. -/
theorem joinPhase_status_ne_killed {R : Type} {w : World R}
    (h : w.status ≠ .Killed) : (joinPhase w).status ≠ .Killed := by
  unfold joinPhase
  split
  · exact runThread_status_ne_killed h
  · exact h

/-- The receive phase of `status` never writes `Killed`. -/
theorem recvPhase_status_ne_killed {R : Type} {w : World R}
    (h : w.status ≠ .Killed) : (recvPhase w).2.status ≠ .Killed := by
  unfold recvPhase
  rcases hc : w.channel with _ | r
  · rcases hp : w.pendingThread with _ | ph
    · dsimp only
      split
      · exact h
      · exact h
    · rcases hc2 : (runThread w).channel with _ | r
      · exact runThread_status_ne_killed h
      · exact runThread_status_ne_killed h
  · exact h

/-- `status` (the spec's `wait`) never writes `Killed`. -/
theorem statusOp_status_ne_killed {R : Type} {w : World R}
    (h : w.status ≠ .Killed) : w.statusOp.2.status ≠ .Killed := by
  unfold World.statusOp
  split
  · exact recvPhase_status_ne_killed (joinPhase_status_ne_killed h)
  · exact joinPhase_status_ne_killed h

/-- `run` never writes `Killed`. -/
theorem runOp_status_ne_killed {R : Type} {w : World R}
    (h : w.status ≠ .Killed) : w.runOp.2.status ≠ .Killed := by
  unfold World.runOp
  rcases hs : w.start with ⟨r, w1⟩
  have h1 : w1.status ≠ .Killed := by
    have := start_status_eq w
    rw [hs] at this
    rw [this]
    exact h
  rcases r with e | u
  · exact h1
  · exact statusOp_status_ne_killed h1

/-- C10: no public operation ever assigns the `Killed` status.  Every world
state reachable from construction through any sequence of API calls — the
world's own operations, or the registry operations, which delegate to them —
and any scheduling of the spawned thread has a status other than `Killed`;
in particular the `Killed` match arms inside `World::status` are
unreachable. -/
theorem status_never_killed {R : Type} {w : World R} (h : Reach w) :
    w.status ≠ WorldStatus.Killed := by
  induction h with
  | new =>
      intro hc
      cases hc
  | fromFn o =>
      intro hc
      cases hc
  | start _ ih =>
      rw [start_status_eq]
      exact ih
  | stop _ ih => exact stop_status_ne_killed ih
  | status _ ih => exact statusOp_status_ne_killed ih
  | run _ ih => exact runOp_status_ne_killed ih
  | thread _ ih => exact threadStep_status_ne_killed ih

/-- C10, witness: `status_never_killed` at the concrete state reached by
constructing a world from a callable returning 5, starting it, letting its
thread run to completion, and waiting. -/
theorem status_never_killed_witness :
    ((runThread ((World.fromFn (Except.ok (5 : Int))).start).2).statusOp).2.status
      ≠ WorldStatus.Killed :=
  status_never_killed
    (Reach.status (Reach.thread (Reach.thread (Reach.thread
      (Reach.start (Reach.fromFn (Except.ok (5 : Int))))))))

end ParallelWorldModel
